import Mathlib

/-!
Verification of the Voice-ChatBot repository's duplex voice session core.

This file shallowly embeds the parts of the repository that the checked
properties are about:

  * `src/llm/tools.py`  — the appointment capabilities (`check_availability_tool`,
    `book_appointment_tool`) built on `src/services/calendar_service.py`;
  * `src/agents/deepgram_voice_agent.py` — the `DeepgramVoiceAgent` class:
    its per-message event handling (`_receive_messages` / `_handle_message`),
    the outbound audio accumulator, `start`, `stop`, `send_audio`,
    `send_raw_pcm`;
  * `src/app.py` — the `handle_start_call` session-registry logic over the
    `active_agents` / `session_modes` dictionaries.

External collaborators (the Google calendar API, the database connection,
the WebSocket library, pydub transcoding) are modelled as oracles passed in
as parameters; the functions return the list of observable effects
(callback invocations, wire sends, collaborator calls) so that properties
about "what was sent / invoked" are statable.  Datetimes are modelled as
integers counting minutes (the only datetime arithmetic in the embedded
code is `timedelta(minutes=·)` addition).  Byte strings are `List Nat`.
-/

/-! ## Tool layer: `src/llm/tools.py` and `src/services/calendar_service.py` -/

/-- A datetime, as minutes on an absolute timeline.  `datetime.fromisoformat`
results and `timedelta(minutes=m)` addition are the only operations the
embedded code performs on datetimes. -/
abbrev DateTimeM := Int

/-- The argument record `calendar_service.create_event` is called with
(source: `src/services/calendar_service.py`, `create_event` signature). -/
structure EventRequest where
  summary : String
  start_time : DateTimeM
  end_time : DateTimeM
  attendee_email : String
  description : String
  meet_link : Bool
  deriving DecidableEq, Repr

/-- The fields of the Google event dict that `book_appointment_tool` reads:
`event['id']` and `event.get('htmlLink')`. -/
structure CalendarEvent where
  eventId : String
  htmlLink : Option String
  deriving DecidableEq, Repr

/-- Oracle for the external Google Calendar collaborator
(`GoogleCalendarService`).  `is_slot_available` returns `none` when the
service is unavailable or the freebusy query raises (the Python method
returns `None` in both cases), `some b` when it determined free/busy.
`create_event` returns `none` when the service is unavailable or the
insert raises (`HttpError`), `some ev` on success. -/
structure CalendarService where
  is_slot_available : DateTimeM → Int → Option Bool
  create_event : EventRequest → Option CalendarEvent

/-- Parsed arguments of `check_availability_tool`.  `date_time` is the
outcome of `json.loads` + `datetime.fromisoformat(args.get("date_time"))`:
`.error e` when either raises (missing key, malformed ISO string, bad
JSON), carrying the exception text; `.ok dt` when parsing succeeded.
`duration_minutes` is `none` when the key is absent (the code then uses
the default 60). -/
structure AvailArgs where
  date_time : Except String DateTimeM
  duration_minutes : Option Int := none

/-- Parsed arguments of `book_appointment_tool`.  `start_time` is the
outcome of parsing as in `AvailArgs.date_time`; `meeting_type` defaults to
`"online"` (`args.get("meeting_type", "online")`). -/
structure BookArgs where
  user_name : String
  user_email : String
  start_time : Except String DateTimeM
  meeting_type : String := "online"

/-- The JSON object a tool serializes with `json.dumps`: a `status` field,
a `msg` field, and (for successful bookings) a `link` field. -/
structure ToolResult where
  status : String
  msg : String
  link : Option String := none
  deriving DecidableEq, Repr

/-- Observable collaborator calls made by a tool invocation. -/
inductive ToolEffect where
  /-- `calendar_service.is_slot_available(dt, duration_minutes)` was called. -/
  | availQuery (dt : DateTimeM) (duration : Int)
  /-- `calendar_service.create_event(...)` was called with this request. -/
  | createdEvent (req : EventRequest)
  /-- The appointments row insert was executed and committed. -/
  | dbInsert (sid email name : String) (start_t end_t : DateTimeM)
      (mtype : String) (eid : String)
  /-- The database write raised; the exception was caught and logged. -/
  | dbErrorLogged (e : String)
  deriving DecidableEq, Repr

/-- Outcome of the best-effort database step of `book_appointment_tool`:
`get_connection()` returned a falsy connection (`noConn`), the insert and
commit succeeded (`ok`), or some database call raised (`raised e`). -/
inductive DbOutcome where
  | noConn
  | ok
  | raised (e : String)
  deriving DecidableEq, Repr

/-- `check_availability_tool(args_json)` from `src/llm/tools.py`.  Parses the
arguments, defaults the duration to 60 minutes, asks the calendar
collaborator, and maps its answer: `None` ↦ `"error"`, `True` ↦
`"available"`, `False` ↦ `"busy"`; any parse exception ↦ `"error"` with the
exception text. -/
def check_availability_tool (cal : CalendarService) (args : AvailArgs) :
    ToolResult × List ToolEffect :=
  match args.date_time with
  | .error e => ({ status := "error", msg := e }, [])
  | .ok dt =>
    let duration := args.duration_minutes.getD 60
    let result :=
      match cal.is_slot_available dt duration with
      | none =>
        { status := "error"
          msg := "Could not check calendar availability. Please try again or contact support." }
      | some true =>
        { status := "available"
          msg := s!"The slot at {dt} for {duration} minutes is free." }
      | some false =>
        { status := "busy"
          msg := s!"Sorry, {dt} is already booked. Please choose another time." }
    (result, [.availQuery dt duration])

/-- The `EventRequest` that `book_appointment_tool` builds for
`calendar_service.create_event`: summary `"Meeting: {name}"`, end time 30
minutes after the start (`end_dt = start_dt + timedelta(minutes=30)`),
description `"Type: {meeting_type}\nSession: {session_id}"`, and a Meet
link exactly when the meeting type is `"online"`. -/
def bookRequest (args : BookArgs) (session_id : String) (start_dt : DateTimeM) :
    EventRequest :=
  { summary := "Meeting: " ++ args.user_name
    start_time := start_dt
    end_time := start_dt + 30
    attendee_email := args.user_email
    description := "Type: " ++ args.meeting_type ++ "\nSession: " ++ session_id
    meet_link := args.meeting_type == "online" }

/-- `book_appointment_tool(args_json, session_id)` from `src/llm/tools.py`.
Creates the 30-minute calendar event (the critical step); if that fails,
reports `"error"`.  Then attempts the best-effort database insert inside
its own try/except: a raised database exception is logged and swallowed,
and the tool still reports `"success"` because the calendar write
worked. -/
def book_appointment_tool (cal : CalendarService) (db : DbOutcome)
    (args : BookArgs) (session_id : String) : ToolResult × List ToolEffect :=
  match args.start_time with
  | .error e => ({ status := "error", msg := e }, [])
  | .ok start_dt =>
    let req := bookRequest args session_id start_dt
    match cal.create_event req with
    | none =>
      ({ status := "error", msg := "Google API failed to create event." },
       [.createdEvent req])
    | some ev =>
      let dbEffs : List ToolEffect :=
        match db with
        | .noConn => []
        | .ok => [.dbInsert session_id args.user_email args.user_name
                    start_dt (start_dt + 30) args.meeting_type ev.eventId]
        | .raised e => [.dbErrorLogged e]
      ({ status := "success"
         msg := "Appointment confirmed. Invitation sent."
         link := ev.htmlLink },
       .createdEvent req :: dbEffs)

/-! ## Duplex session: `src/agents/deepgram_voice_agent.py` -/

namespace DeepgramVoiceAgent

/-- The mutable per-session state of a `DeepgramVoiceAgent` instance:
connection handle (`self.ws`, `none` = Python `None`), the `is_connected`
and `is_running` flags, the response collection buffer (`audio_buffer`),
the outbound streaming accumulator (`stream_buffer`) and the
`file_counter`.  Byte strings are lists of byte values. -/
structure AgentState where
  ws : Option Unit := none
  is_connected : Bool := false
  is_running : Bool := false
  audio_buffer : List Nat := []
  stream_buffer : List Nat := []
  file_counter : Nat := 0
  deriving DecidableEq, Repr

/-- Which callbacks were supplied at construction (each Python callback
attribute is either a function or `None`; the handlers guard every
invocation with `if self.on_x:`). -/
structure Callbacks where
  on_transcription : Bool := true
  on_response_text : Bool := true
  on_audio_response : Bool := true
  on_agent_thinking : Bool := true
  on_agent_speaking : Bool := true
  on_agent_done : Bool := true
  on_error : Bool := true
  deriving DecidableEq, Repr

/-- A decoded inbound JSON message, with the keys `_handle_message` reads
(`data.get("type", "Unknown")`, `data.get("role", "")`,
`data.get("content", "")`, `data.get("description")`, `data.get("message")`)
plus the correlation fields a `FunctionCallRequest` wire event carries
(present on the wire; the handler never reads them). -/
structure InboundMsg where
  type : String
  role : String := ""
  content : String := ""
  description : Option String := none
  message : Option String := none
  function_call_id : String := ""
  name : String := ""
  deriving DecidableEq, Repr

/-- One frame received from the WebSocket: binary audio or a decoded JSON
event (the `isinstance(message, bytes)` branch of `_receive_messages`). -/
inductive WsMessage where
  | binary (b : List Nat)
  | text (m : InboundMsg)
  deriving DecidableEq, Repr

/-- Observable actions of the session: callback invocations and outbound
wire traffic. -/
inductive Effect where
  /-- `self.on_audio_response(bytes(...))` was invoked with these bytes. -/
  | audio (b : List Nat)
  /-- `self.on_transcription(text, is_final)` was invoked. -/
  | transcription (text : String) (is_final : Bool)
  /-- `self.on_response_text(text)` was invoked. -/
  | responseText (text : String)
  /-- `self.on_agent_thinking()` was invoked. -/
  | agentThinking
  /-- `self.on_agent_speaking()` was invoked. -/
  | agentSpeaking
  /-- `self.on_agent_done()` was invoked. -/
  | agentDone
  /-- `self.on_error(msg)` was invoked. -/
  | errorCb (msg : String)
  /-- A JSON text frame was sent on the WebSocket (`_send_json`). -/
  | wsSendText (s : String)
  /-- A binary frame was sent on the WebSocket (`self.ws.send(bytes)`). -/
  | wsSendBytes (b : List Nat)
  /-- `convert_webm_to_linear16` (the Transcoder) was invoked on these bytes. -/
  | transcodeCall (b : List Nat)
  /-- The Settings configuration message was sent (`_send_settings`). -/
  | sentSettings
  deriving DecidableEq, Repr

/-- `self.stream_buffer_size = 19200` — flush threshold of the streaming
accumulator (0.4 s at 24 kHz, 16-bit mono). -/
def stream_buffer_size : Nat := 19200

/-- The binary branch of `_receive_messages`: extend `audio_buffer` and
`stream_buffer` with the frame; if the accumulator reached the threshold,
invoke the audio callback with its entire contents and reset it. -/
def handle_binary (cb : Callbacks) (st : AgentState) (b : List Nat) :
    AgentState × List Effect :=
  let ab := st.audio_buffer ++ b
  let sb := st.stream_buffer ++ b
  if stream_buffer_size ≤ sb.length then
    ({ st with audio_buffer := ab, stream_buffer := [] },
     if cb.on_audio_response then [.audio sb] else [])
  else
    ({ st with audio_buffer := ab, stream_buffer := sb }, [])

/-- `_handle_message(data)`: dispatch a decoded JSON event on its `type`
tag.  Event types matching no branch (including `FunctionCallRequest`) are
ignored: no state change, no effect. -/
def handle_message (cb : Callbacks) (st : AgentState) (m : InboundMsg) :
    AgentState × List Effect :=
  if m.type == "Welcome" then (st, [])
  else if m.type == "SettingsApplied" then (st, [])
  else if m.type == "ConversationText" then
    if m.role == "user" && m.content != "" then
      (st, if cb.on_transcription then [.transcription m.content true] else [])
    else if m.role == "assistant" && m.content != "" then
      (st, if cb.on_response_text then [.responseText m.content] else [])
    else (st, [])
  else if m.type == "UserStartedSpeaking" then
    ({ st with audio_buffer := [], stream_buffer := [] }, [])
  else if m.type == "AgentThinking" then
    (st, if cb.on_agent_thinking then [.agentThinking] else [])
  else if m.type == "AgentStartedSpeaking" then
    ({ st with audio_buffer := [], stream_buffer := [] },
     if cb.on_agent_speaking then [.agentSpeaking] else [])
  else if m.type == "AgentAudioDone" then
    ({ st with stream_buffer := [], audio_buffer := [],
               file_counter := st.file_counter + 1 },
     (if 0 < st.stream_buffer.length then
        (if cb.on_audio_response then [.audio st.stream_buffer] else [])
      else []) ++
     (if cb.on_agent_done then [.agentDone] else []))
  else if m.type == "Error" then
    (st, if cb.on_error then
           [.errorCb (m.description.getD (m.message.getD "Unknown error"))]
         else [])
  else (st, [])

/-- Processing of one received frame by the event loop body. -/
def step (cb : Callbacks) (st : AgentState) : WsMessage → AgentState × List Effect
  | .binary b => handle_binary cb st b
  | .text m => handle_message cb st m

/-- Processing of a sequence of received frames in arrival order,
collecting the emitted effects in order. -/
def run (cb : Callbacks) : AgentState → List WsMessage → AgentState × List Effect
  | st, [] => (st, [])
  | st, m :: ms =>
    ((run cb (step cb st m).1 ms).1,
     (step cb st m).2 ++ (run cb (step cb st m).1 ms).2)

/-- The byte strings passed to the audio-response callback, in order. -/
def audioChunks (effs : List Effect) : List (List Nat) :=
  effs.filterMap fun e => match e with | .audio b => some b | _ => none

/-- `stop()`: clear `is_running` then `is_connected`, close and release the
connection handle, reset `audio_buffer`.  (`stream_buffer` is not touched
by `stop`.) -/
def stop (st : AgentState) : AgentState :=
  { st with is_running := false, is_connected := false,
            ws := none, audio_buffer := [] }

/-- `send_audio(audio_bytes, is_webm)`: returns at once on an empty chunk;
warns and returns when not connected; otherwise converts WebM via the
Transcoder (dropping the chunk if conversion fails, surfacing an error if
pydub is missing) or sends PCM directly.  The session state is never
mutated; the result is the list of observable effects. -/
def send_audio (pydubAvail : Bool) (transcode : List Nat → Option (List Nat))
    (cb : Callbacks) (st : AgentState) (audio_bytes : List Nat)
    (is_webm : Bool) : List Effect :=
  if audio_bytes.isEmpty then []
  else if st.ws.isNone || !st.is_connected then []
  else if is_webm then
    if pydubAvail then
      match transcode audio_bytes with
      | some pcm => [.transcodeCall audio_bytes, .wsSendBytes pcm]
      | none => [.transcodeCall audio_bytes]
    else if cb.on_error then
      [.errorCb "Audio format incompatible - pydub required for conversion"]
    else []
  else [.wsSendBytes audio_bytes]

/-- `send_raw_pcm(pcm_bytes)`: returns at once on an empty chunk or when
not connected; otherwise sends the bytes unchanged. -/
def send_raw_pcm (st : AgentState) (pcm_bytes : List Nat) : List Effect :=
  if pcm_bytes.isEmpty then []
  else if st.ws.isNone || !st.is_connected then []
  else [.wsSendBytes pcm_bytes]

/-- The connection-retry loop of `start()`: `fuel` attempts remain,
`attempt` is the 0-based index of the current one, `delay` the sleep
before the next one.  `succ i` tells whether the `i`-th `ws_connect` call
succeeds.  Returns whether a connection was established and the sequence
of back-off sleeps performed (`retry_delay *= 2` after each). -/
def connectLoop (succ : Nat → Bool) : Nat → Nat → Nat → Bool × List Nat
  | 0, _, _ => (false, [])
  | fuel + 1, attempt, delay =>
    if succ attempt then (true, [])
    else if fuel = 0 then (false, [])
    else
      ((connectLoop succ fuel (attempt + 1) (delay * 2)).1,
       delay :: (connectLoop succ fuel (attempt + 1) (delay * 2)).2)

/-- The synchronous outcome of `start()`. -/
structure StartResult where
  ok : Bool
  effects : List Effect
  sleeps : List Nat
  st : AgentState
  deriving DecidableEq, Repr

/-- `start()`: fails immediately (with the error callback) when the
WebSocket library or the API key is missing; otherwise attempts
`ws_connect` up to `max_retries = 3` times with exponential back-off
starting at 2 s.  If every attempt fails, invokes the error callback once
and returns failure; on success sets the flags, spawns the two background
threads, sends the Settings message and returns success. -/
def start (wsAvail keyPresent : Bool) (succ : Nat → Bool) (cb : Callbacks)
    (st : AgentState) : StartResult :=
  if !wsAvail then
    ⟨false,
     if cb.on_error then [.errorCb "websockets package not available"] else [],
     [], st⟩
  else if !keyPresent then
    ⟨false,
     if cb.on_error then [.errorCb "DEEPGRAM_API_KEY not configured"] else [],
     [], st⟩
  else
    let r := connectLoop succ 3 0 2
    if r.1 then
      ⟨true, [.sentSettings], r.2,
       { st with ws := some (), is_connected := true, is_running := true }⟩
    else
      ⟨false,
       if cb.on_error then [.errorCb "Failed to connect after 3 attempts"] else [],
       r.2, st⟩

end DeepgramVoiceAgent

/-! ## Session registry: `handle_start_call` in `src/app.py` -/

/-- The mode tag stored in `session_modes`. -/
inductive SessionMode where
  | voiceAgent
  | legacy
  deriving DecidableEq, Repr

/-- One registry entry: the agent object (identified by an id) together
with its mode tag (the `active_agents` and `session_modes` dicts share
their keys). -/
structure RegEntry where
  agentId : Nat
  mode : SessionMode
  deriving DecidableEq, Repr

/-- The `active_agents` dictionary, as an association list keyed by the
session identifier. -/
abbrev Registry := List (String × RegEntry)

/-- Teardown and registration actions performed by `handle_start_call`. -/
inductive RegEffect where
  /-- `old_agent.stop()` was called (prior entry in voice-agent mode). -/
  | stopOld (a : Nat)
  /-- `old_agent.cleanup()` was called (prior entry in legacy mode). -/
  | cleanupOld (a : Nat)
  /-- A fresh agent was created and registered for the session. -/
  | startNew (a : Nat)
  deriving DecidableEq, Repr

/-- Process-wide state: the registry plus the set of agents holding a live
connection / active pipeline. -/
structure RegWorld where
  reg : Registry := []
  live : List Nat := []
  deriving DecidableEq, Repr

/-- Dictionary lookup `active_agents.get(session_id)`. -/
def lookupReg : Registry → String → Option RegEntry
  | [], _ => none
  | (k, e) :: rest, sid => if k = sid then some e else lookupReg rest sid

/-- Dictionary removal `active_agents.pop(session_id)` (removes every
binding for the key; under the no-duplicate-keys invariant there is at
most one). -/
def removeReg : Registry → String → Registry
  | [], _ => []
  | (k, e) :: rest, sid =>
    if k = sid then removeReg rest sid else (k, e) :: removeReg rest sid

/-- The teardown `handle_start_call` applies to a replaced entry:
`old_agent.stop()` when the old mode was `voice_agent`, else
`old_agent.cleanup()`. -/
def teardownEffect (e : RegEntry) : RegEffect :=
  match e.mode with
  | .voiceAgent => .stopOld e.agentId
  | .legacy => .cleanupOld e.agentId

/-- `handle_start_call(data)` from `src/app.py`, registry part.  If an
entry already exists for the session identifier it is popped and torn down
first.  Then a fresh agent (`newId`) is created: in voice-agent mode when
that was requested, the Voice Agent is available and its `start()`
succeeded, otherwise in legacy fallback mode; either way the fresh agent
is installed in the registry and becomes the session's live agent. -/
def handle_start_call (w : RegWorld) (sid : String)
    (useVA vaAvail startOk : Bool) (newId : Nat) : RegWorld × List RegEffect :=
  let cleaned : RegWorld × List RegEffect :=
    match lookupReg w.reg sid with
    | some e =>
      (⟨removeReg w.reg sid, w.live.filter (fun a => a ≠ e.agentId)⟩,
       [teardownEffect e])
    | none => (w, [])
  let mode : SessionMode :=
    if useVA && vaAvail && startOk then .voiceAgent else .legacy
  (⟨(sid, ⟨newId, mode⟩) :: cleaned.1.reg, newId :: cleaned.1.live⟩,
   cleaned.2 ++ [.startNew newId])

/-- A sequence of `start_call` transport events applied in order; the
`n`-th call creates agent id `n` (fresh ids: each Python agent object is
new). -/
def runCalls : RegWorld → Nat → List (String × Bool × Bool × Bool) → RegWorld
  | w, _, [] => w
  | w, n, (sid, a, b, c) :: rest =>
    runCalls (handle_start_call w sid a b c n).1 (n + 1) rest

/-- The session identifiers bound in a registry. -/
def keysOf (reg : Registry) : List String := reg.map Prod.fst

/-- The agent ids bound in a registry. -/
def agentsOf (reg : Registry) : List Nat := reg.map (fun p => p.2.agentId)

/-- Internal well-formedness of the process-wide state, relative to the
next fresh agent id `n`: no duplicate session keys, every live agent is
registered, and every mentioned agent id is below `n`. -/
def RegInv (w : RegWorld) (n : Nat) : Prop :=
  (keysOf w.reg).Nodup ∧
  (∀ a ∈ w.live, a ∈ agentsOf w.reg) ∧
  (∀ a ∈ agentsOf w.reg, a < n)

/-! ## Concrete fixtures used by witnesses and counterexamples -/

/-- A calendar oracle whose free/busy query always answers "free" and whose
event insert always succeeds. -/
def okCal : CalendarService :=
  ⟨fun _ _ => some true, fun _ => some ⟨"ev1", some "http://link"⟩⟩

/-- A calendar oracle that can never determine free/busy and whose insert
always fails. -/
def downCal : CalendarService := ⟨fun _ _ => none, fun _ => none⟩

/-- Concrete booking arguments: Ann, starting at minute 100. -/
def annArgs : BookArgs :=
  { user_name := "Ann", user_email := "a@x.io", start_time := Except.ok 100 }

/-- Concrete availability arguments with no duration supplied. -/
def slotArgs : AvailArgs := { date_time := Except.ok 0 }

/-- A concrete `FunctionCallRequest` wire event with correlation id
`"abc123"` asking for `check_availability`. -/
def fcrMsg : DeepgramVoiceAgent.InboundMsg :=
  { type := "FunctionCallRequest", function_call_id := "abc123",
    name := "check_availability" }

/-- A connected, running session with empty buffers. -/
def activeSt : DeepgramVoiceAgent.AgentState :=
  { ws := some (), is_connected := true, is_running := true }

/-- The `AgentAudioDone` wire event. -/
def doneMsg : DeepgramVoiceAgent.InboundMsg := { type := "AgentAudioDone" }

/-! ## Theorems -/

open DeepgramVoiceAgent in
/-- C10: for every Duplex Session state (connected or not), `send_audio`
and `send_raw_pcm` applied to an empty byte string return immediately:
nothing is sent on the connection, the Transcoder is not invoked, and no
callback is invoked (the effect list is empty). -/
theorem C10_empty_chunk_is_noop :
    ∀ (pydubAvail : Bool) (transcode : List Nat → Option (List Nat))
      (cb : Callbacks) (st : AgentState) (is_webm : Bool),
      send_audio pydubAvail transcode cb st [] is_webm = [] ∧
      send_raw_pcm st [] = [] := by
  intro p t cb st w
  exact ⟨rfl, rfl⟩

open DeepgramVoiceAgent in
/-- C8 counterexample: `stop()` does not clear the streaming accumulator.
Starting from a connected state whose `stream_buffer` holds one byte,
`stop` leaves that byte in place, so it is not the case that after `stop`
every audio buffer owned by the session has size zero. -/
theorem C8_counterexample :
    (stop { ws := some (), is_connected := true, is_running := true,
            audio_buffer := [5], stream_buffer := [7],
            file_counter := 0 }).stream_buffer = [7] ∧
    ¬ (stop { ws := some (), is_connected := true, is_running := true,
              audio_buffer := [5], stream_buffer := [7],
              file_counter := 0 }).stream_buffer.length = 0 := by
  exact ⟨rfl, by decide⟩

open DeepgramVoiceAgent in
/-- C8 (amended): after `stop()` the response collection buffer
(`audio_buffer`) is empty, the running and connected flags are cleared and
the connection handle is released, but the streaming accumulator
(`stream_buffer`) is left untouched; a second `stop()` leaves the state
identical to one `stop()` (idempotence), and `stop` is a total function
(it raises nothing). -/
theorem C8_stop_amended :
    ∀ st : AgentState,
      (stop st).audio_buffer = [] ∧
      (stop st).is_running = false ∧
      (stop st).is_connected = false ∧
      (stop st).ws = none ∧
      (stop st).stream_buffer = st.stream_buffer ∧
      stop (stop st) = stop st := by
  intro st
  exact ⟨rfl, rfl, rfl, rfl, rfl, rfl⟩

open DeepgramVoiceAgent in
/-- C3: when the accumulator holds `B` bytes with `0 < B <` threshold and a
`UserStartedSpeaking` event is processed, the accumulator is empty
afterwards and no callback is invoked — in particular the audio-response
callback never receives those bytes, so no flush of the pre-barge-in
bytes occurs. -/
theorem C3_barge_in_clears_accumulator (cb : Callbacks) (st : AgentState)
    (h1 : 0 < st.stream_buffer.length)
    (h2 : st.stream_buffer.length < stream_buffer_size) :
    step cb st (.text { type := "UserStartedSpeaking" }) =
      ({ st with audio_buffer := [], stream_buffer := [] }, []) := by
  rfl

open DeepgramVoiceAgent in
/-- C3 witness: the theorem instantiated at a session whose accumulator
holds three bytes. -/
theorem C3_barge_in_clears_accumulator_witness :
    (0 : Nat) < ([1, 2, 3] : List Nat).length ∧
    ([1, 2, 3] : List Nat).length < stream_buffer_size ∧
    step {} { stream_buffer := [1, 2, 3] }
        (.text { type := "UserStartedSpeaking" }) =
      ({ stream_buffer := [] }, []) := by
  refine ⟨by decide, by decide, ?_⟩
  exact C3_barge_in_clears_accumulator {} { stream_buffer := [1, 2, 3] }
    (by decide) (by decide)

/-- C6: when the calendar write succeeds (`create_event` returns an event)
but the best-effort database write raises, `book_appointment_tool` still
reports `status = "success"`, and the reported result is identical to the
one reported when the database write succeeds — the database failure is
swallowed. -/
theorem C6_booking_partial_failure (cal : CalendarService) (args : BookArgs)
    (session_id e : String) (t : DateTimeM) (ev : CalendarEvent)
    (hstart : args.start_time = Except.ok t)
    (hcal : cal.create_event (bookRequest args session_id t) = some ev) :
    (book_appointment_tool cal (.raised e) args session_id).1.status = "success" ∧
    (book_appointment_tool cal (.raised e) args session_id).1 =
      (book_appointment_tool cal .ok args session_id).1 := by
  simp [book_appointment_tool, hstart, hcal]

/-- C6 witness: the theorem instantiated at a calendar oracle that accepts
every event, a raising database, and a concrete booking request. -/
theorem C6_booking_partial_failure_witness :
    annArgs.start_time = Except.ok 100 ∧
    okCal.create_event (bookRequest annArgs "s1" 100) =
      some ⟨"ev1", some "http://link"⟩ ∧
    (book_appointment_tool okCal (.raised "db down")
        annArgs "s1").1.status = "success" := by
  refine ⟨rfl, rfl, ?_⟩
  exact (C6_booking_partial_failure okCal annArgs "s1" "db down" 100
    ⟨"ev1", some "http://link"⟩ rfl rfl).1

/-- C7: on arguments whose `date_time` parsed, `check_availability_tool`
reports `"error"` (never `"busy"`) when the calendar collaborator returns
the indeterminate result `None`, reports `"available"` exactly when the
collaborator returns true, and reports `"busy"` exactly when it returns
false. -/
theorem C7_availability_ambiguity (cal : CalendarService) (args : AvailArgs)
    (dt : DateTimeM) (h : args.date_time = Except.ok dt) :
    (cal.is_slot_available dt (args.duration_minutes.getD 60) = none →
       (check_availability_tool cal args).1.status = "error" ∧
       (check_availability_tool cal args).1.status ≠ "busy") ∧
    (cal.is_slot_available dt (args.duration_minutes.getD 60) = some true ↔
       (check_availability_tool cal args).1.status = "available") ∧
    (cal.is_slot_available dt (args.duration_minutes.getD 60) = some false ↔
       (check_availability_tool cal args).1.status = "busy") := by
  cases hq : cal.is_slot_available dt (args.duration_minutes.getD 60) with
  | none => simp [check_availability_tool, h, hq]
  | some b => cases b <;> simp [check_availability_tool, h, hq]

/-- C7 witness: the theorem instantiated at a collaborator that cannot
determine free/busy (always `None`), showing the reported status is
`"error"`. -/
theorem C7_availability_ambiguity_witness :
    slotArgs.date_time = Except.ok 0 ∧
    downCal.is_slot_available 0 (slotArgs.duration_minutes.getD 60) = none ∧
    (check_availability_tool downCal slotArgs).1.status = "error" := by
  refine ⟨rfl, rfl, ?_⟩
  exact ((C7_availability_ambiguity downCal slotArgs 0 rfl).1 rfl).1

/-- C9: every calendar event `book_appointment_tool` creates ends exactly
30 minutes after it starts, whatever the supplied arguments, the database
outcome and the calendar oracle; and `check_availability_tool` with no
supplied duration queries the collaborator for a 60-minute window. -/
theorem C9_booking_is_thirty_minutes :
    (∀ (cal : CalendarService) (db : DbOutcome) (args : BookArgs)
       (session_id : String) (req : EventRequest),
       ToolEffect.createdEvent req ∈ (book_appointment_tool cal db args session_id).2 →
       req.end_time = req.start_time + 30) ∧
    (∀ (cal : CalendarService) (args : AvailArgs) (dt : DateTimeM),
       args.date_time = Except.ok dt → args.duration_minutes = none →
       (check_availability_tool cal args).2 = [ToolEffect.availQuery dt 60]) := by
  constructor
  · intro cal db args session_id req hmem
    unfold book_appointment_tool at hmem
    cases hs : args.start_time with
    | error e => simp [hs] at hmem
    | ok t =>
      rw [hs] at hmem
      cases hc : cal.create_event (bookRequest args session_id t) with
      | none =>
        simp [hc] at hmem
        subst hmem
        rfl
      | some ev =>
        simp [hc] at hmem
        rcases hmem with hmem | hmem
        · subst hmem; rfl
        · cases db <;> simp at hmem
  · intro cal args dt h hd
    simp [check_availability_tool, h, hd]

/-- C9 witness: a concrete booking whose created event runs from minute
100 to minute 130, and a concrete availability check with no duration
argument querying a 60-minute window. -/
theorem C9_booking_is_thirty_minutes_witness :
    (ToolEffect.createdEvent (bookRequest annArgs "s1" 100) ∈
      (book_appointment_tool okCal .ok annArgs "s1").2) ∧
    (bookRequest annArgs "s1" 100).end_time =
      (bookRequest annArgs "s1" 100).start_time + 30 ∧
    (check_availability_tool okCal slotArgs).2 =
      [ToolEffect.availQuery 0 60] := by
  refine ⟨by simp [book_appointment_tool, bookRequest, okCal, annArgs], ?_, ?_⟩
  · exact C9_booking_is_thirty_minutes.1 okCal .ok annArgs "s1" _
      (by simp [book_appointment_tool, bookRequest, okCal, annArgs])
  · exact C9_booking_is_thirty_minutes.2 okCal slotArgs 0 rfl rfl

open DeepgramVoiceAgent in
/-- C1 counterexample: the event loop does not dispatch function calls.
Processing a `FunctionCallRequest` event with correlation id `"abc123"`
and name `"check_availability"` on a connected session emits no effect at
all — in particular zero `FunctionCallResponse` frames are sent, not
exactly one — and leaves the state unchanged. -/
theorem C1_counterexample :
    step {} activeSt (.text fcrMsg) = (activeSt, []) ∧
    audioChunks [] = [] ∧
    ∀ s, Effect.wsSendText s ∉ ([] : List Effect) := by
  exact ⟨rfl, rfl, fun s h => by cases h⟩

open DeepgramVoiceAgent in
/-- C1 (amended): inbound `FunctionCallRequest` events are ignored by the
event loop: whatever the callbacks, state and message payload, handling
one performs no dispatch, sends no `FunctionCallResponse` and leaves the
session state unchanged (so it can never terminate the loop); the
`check_availability` capability itself, invoked directly on a free slot,
returns an output whose `status` is `"available"`. -/
theorem C1_function_call_request_ignored :
    (∀ (cb : Callbacks) (st : AgentState) (m : InboundMsg),
       m.type = "FunctionCallRequest" → handle_message cb st m = (st, [])) ∧
    (∀ (cal : CalendarService) (args : AvailArgs) (dt : DateTimeM),
       args.date_time = Except.ok dt →
       cal.is_slot_available dt (args.duration_minutes.getD 60) = some true →
       (check_availability_tool cal args).1.status = "available") := by
  constructor
  · intro cb st m h
    simp [handle_message, h]
  · intro cal args dt h hfree
    simp [check_availability_tool, h, hfree]

open DeepgramVoiceAgent in
/-- C1 witness: the amended theorem instantiated at the `"abc123"` request
and at a collaborator that reports the slot free. -/
theorem C1_function_call_request_ignored_witness :
    fcrMsg.type = "FunctionCallRequest" ∧
    handle_message {} activeSt fcrMsg = (activeSt, []) ∧
    okCal.is_slot_available 0 (slotArgs.duration_minutes.getD 60) = some true ∧
    (check_availability_tool okCal slotArgs).1.status = "available" := by
  refine ⟨rfl, ?_, rfl, ?_⟩
  · exact C1_function_call_request_ignored.1 {} activeSt fcrMsg rfl
  · exact C1_function_call_request_ignored.2 okCal slotArgs 0 rfl rfl

open DeepgramVoiceAgent in
/-- C4: with credentials and transport library present and an error
callback configured, if every one of the 3 configured connection attempts
fails, `start()` returns failure, invokes the error callback exactly once
and sleeps the exponentially increasing back-off delays 2 s then 4 s
between attempts; if any attempt succeeds, `start()` returns success and
the error callback is never invoked. -/
theorem C4_retry_ceiling (succ : Nat → Bool) (cb : Callbacks)
    (st : AgentState) (herr : cb.on_error = true) :
    ((∀ i, i < 3 → succ i = false) →
       (start true true succ cb st).ok = false ∧
       (start true true succ cb st).effects =
         [.errorCb "Failed to connect after 3 attempts"] ∧
       (start true true succ cb st).sleeps = [2, 4]) ∧
    ((∃ i, i < 3 ∧ succ i = true) →
       (start true true succ cb st).ok = true ∧
       ∀ s, Effect.errorCb s ∉ (start true true succ cb st).effects) := by
  constructor
  · intro hall
    simp [start, connectLoop, hall 0 (by norm_num), hall 1 (by norm_num),
      hall 2 (by norm_num), herr]
  · intro hex
    cases h0 : succ 0 with
    | true =>
      constructor
      · simp [start, connectLoop, h0]
      · intro s hs
        simp [start, connectLoop, h0] at hs
    | false =>
      cases h1 : succ 1 with
      | true =>
        constructor
        · simp [start, connectLoop, h0, h1]
        · intro s hs
          simp [start, connectLoop, h0, h1] at hs
      | false =>
        cases h2 : succ 2 with
        | true =>
          constructor
          · simp [start, connectLoop, h0, h1, h2]
          · intro s hs
            simp [start, connectLoop, h0, h1, h2] at hs
        | false =>
          exfalso
          obtain ⟨i, hi, hsucc⟩ := hex
          interval_cases i <;> simp_all

open DeepgramVoiceAgent in
/-- C4 witness: the theorem instantiated at a connection oracle that always
fails (all three attempts fail) and at one whose second attempt
succeeds. -/
theorem C4_retry_ceiling_witness :
    (∀ i, i < 3 → (fun _ => false : Nat → Bool) i = false) ∧
    (start true true (fun _ => false) {} activeSt).ok = false ∧
    (start true true (fun _ => false) {} activeSt).effects =
      [.errorCb "Failed to connect after 3 attempts"] ∧
    (start true true (fun _ => false) {} activeSt).sleeps = [2, 4] ∧
    (∃ i, i < 3 ∧ (fun j => j == 1 : Nat → Bool) i = true) ∧
    (start true true (fun j => j == 1) {} activeSt).ok = true := by
  have h1 := (C4_retry_ceiling (fun _ => false) {} activeSt rfl).1
    (fun i _ => rfl)
  have h2 := (C4_retry_ceiling (fun j => j == 1) {} activeSt rfl).2
    ⟨1, by norm_num, rfl⟩
  exact ⟨fun i _ => rfl, h1.1, h1.2.1, h1.2.2, ⟨1, by norm_num, rfl⟩, h2.1⟩

open DeepgramVoiceAgent

/-- Unfolding of `run` on a cons. -/
theorem run_cons (cb : Callbacks) (st : AgentState) (m : WsMessage)
    (ms : List WsMessage) :
    run cb st (m :: ms) =
      ((run cb (step cb st m).1 ms).1,
       (step cb st m).2 ++ (run cb (step cb st m).1 ms).2) := rfl

/-- `run` over a concatenation composes. -/
theorem run_append (cb : Callbacks) :
    ∀ (xs ys : List WsMessage) (st : AgentState),
      run cb st (xs ++ ys) =
        ((run cb (run cb st xs).1 ys).1,
         (run cb st xs).2 ++ (run cb (run cb st xs).1 ys).2) := by
  intro xs
  induction xs with
  | nil => intro ys st; simp [run]
  | cons m ms ih => intro ys st; simp [run_cons, ih, List.append_assoc]

/-- `audioChunks` distributes over concatenation of effect lists. -/
theorem audioChunks_append (xs ys : List Effect) :
    audioChunks (xs ++ ys) = audioChunks xs ++ audioChunks ys :=
  List.filterMap_append xs ys _

/-- Invariant of the binary branch of the event loop: over any sequence of
binary frames, the flushed chunks followed by the remaining accumulator
contents reproduce the initial accumulator contents followed by all
received bytes, in order, and every flushed chunk is at least the
threshold long. -/
theorem run_binary_invariant (cb : Callbacks)
    (hcb : cb.on_audio_response = true) :
    ∀ (bs : List (List Nat)) (st : AgentState),
      (audioChunks (run cb st (bs.map WsMessage.binary)).2).flatten ++
          (run cb st (bs.map WsMessage.binary)).1.stream_buffer =
        st.stream_buffer ++ bs.flatten ∧
      ∀ c ∈ audioChunks (run cb st (bs.map WsMessage.binary)).2,
        stream_buffer_size ≤ c.length := by
  intro bs
  induction bs with
  | nil => intro st; simp [run, audioChunks]
  | cons b bs ih =>
    intro st
    rw [List.map_cons, run_cons]
    by_cases hth : stream_buffer_size ≤ (st.stream_buffer ++ b).length
    · have hth' : stream_buffer_size ≤ st.stream_buffer.length + b.length := by
        simpa using hth
      have hstep : step cb st (.binary b) =
          ({ st with audio_buffer := st.audio_buffer ++ b,
                     stream_buffer := [] },
           [Effect.audio (st.stream_buffer ++ b)]) := by
        simp [step, handle_binary, hth', hcb]
      rw [hstep]
      obtain ⟨ih1, ih2⟩ := ih { st with audio_buffer := st.audio_buffer ++ b,
                                        stream_buffer := [] }
      simp only [List.nil_append] at ih1
      have hsingle : audioChunks [Effect.audio (st.stream_buffer ++ b)] =
          [st.stream_buffer ++ b] := rfl
      rw [audioChunks_append]
      constructor
      · rw [hsingle, List.flatten_append, List.append_assoc, ih1]
        simp [List.flatten_cons, List.append_assoc]
      · intro c hc
        rcases List.mem_append.mp hc with hc | hc
        · rw [hsingle] at hc
          simp at hc
          subst hc
          exact hth
        · exact ih2 c hc
    · have hth' : ¬ stream_buffer_size ≤ st.stream_buffer.length + b.length := by
        simpa using hth
      have hstep : step cb st (.binary b) =
          ({ st with audio_buffer := st.audio_buffer ++ b,
                     stream_buffer := st.stream_buffer ++ b }, []) := by
        simp [step, handle_binary, hth']
      rw [hstep]
      obtain ⟨ih1, ih2⟩ := ih { st with audio_buffer := st.audio_buffer ++ b,
                                        stream_buffer := st.stream_buffer ++ b }
      constructor
      · simp only [List.nil_append]
        rw [ih1]
        simp [List.flatten_cons, List.append_assoc]
      · intro c hc
        simp only [List.nil_append] at hc
        exact ih2 c hc

/-- Processing the `AgentAudioDone` event flushes the accumulator: the
audio chunks it emits are exactly the accumulator contents when nonempty
(a single chunk, of any size), and the accumulator is empty afterwards. -/
theorem run_done_flush (cb : Callbacks) (hcb : cb.on_audio_response = true)
    (st1 : AgentState) :
    audioChunks (run cb st1 [WsMessage.text doneMsg]).2 =
      (if 0 < st1.stream_buffer.length then [st1.stream_buffer] else []) ∧
    (run cb st1 [WsMessage.text doneMsg]).1.stream_buffer = [] := by
  constructor
  · by_cases h : 0 < st1.stream_buffer.length <;>
      cases hd : cb.on_agent_done <;>
        simp [run, step, handle_message, doneMsg, audioChunks, h, hd, hcb]
  · by_cases h : 0 < st1.stream_buffer.length <;>
      simp [run, step, handle_message, doneMsg, h]

/-- C2: starting from an empty accumulator, for any sequence of binary
audio frames followed by the `AgentAudioDone` event (no intervening
`UserStartedSpeaking` or `AgentStartedSpeaking`), the byte strings passed
to the audio-response callback, concatenated in arrival order, equal all
received bytes; every chunk except possibly the last has size at least the
19200-byte threshold (the final `AgentAudioDone` flush is emitted even
below threshold), and the accumulator ends empty. -/
theorem C2_accumulator_flush_invariant (cb : Callbacks) (st : AgentState)
    (bs : List (List Nat)) (hcb : cb.on_audio_response = true)
    (hsb : st.stream_buffer = []) :
    (audioChunks
        (run cb st (bs.map WsMessage.binary ++ [WsMessage.text doneMsg])).2).flatten
      = bs.flatten ∧
    (∀ c ∈ (audioChunks
        (run cb st (bs.map WsMessage.binary ++ [WsMessage.text doneMsg])).2).dropLast,
        stream_buffer_size ≤ c.length) ∧
    (run cb st (bs.map WsMessage.binary ++ [WsMessage.text doneMsg])).1.stream_buffer
      = [] := by
  obtain ⟨inv1, inv2⟩ := run_binary_invariant cb hcb bs st
  rw [hsb, List.nil_append] at inv1
  obtain ⟨hd1, hd2⟩ :=
    run_done_flush cb hcb (run cb st (bs.map WsMessage.binary)).1
  rw [run_append]
  simp only [Prod.fst, Prod.snd, audioChunks_append, hd1, hd2]
  refine ⟨?_, ?_, trivial⟩
  · by_cases hflush : 0 < (run cb st (bs.map WsMessage.binary)).1.stream_buffer.length
    · rw [if_pos hflush, List.flatten_append]
      simpa [List.append_assoc] using inv1
    · have hnil : (run cb st (bs.map WsMessage.binary)).1.stream_buffer = [] := by
        simpa using List.length_eq_zero.mp (Nat.eq_zero_of_not_pos hflush)
      rw [if_neg hflush, List.append_nil]
      rw [hnil, List.append_nil] at inv1
      exact inv1
  · by_cases hflush : 0 < (run cb st (bs.map WsMessage.binary)).1.stream_buffer.length
    · rw [if_pos hflush, List.dropLast_concat]
      exact inv2
    · rw [if_neg hflush, List.append_nil]
      intro c hc
      exact inv2 c ((List.dropLast_sublist _).subset hc)

/-- C2 witness: the theorem instantiated at a session with empty
accumulator receiving one 3-byte frame and the completion event; the
single chunk delivered is the final below-threshold flush. -/
theorem C2_accumulator_flush_invariant_witness :
    ({} : Callbacks).on_audio_response = true ∧
    activeSt.stream_buffer = [] ∧
    (audioChunks
        (run {} activeSt ([[1, 2, 3]].map WsMessage.binary ++
          [WsMessage.text doneMsg])).2).flatten = [[1, 2, 3]].flatten := by
  refine ⟨rfl, rfl, ?_⟩
  exact (C2_accumulator_flush_invariant {} activeSt [[1, 2, 3]] rfl rfl).1


/-- Keys of a consed registry. -/
theorem keysOf_cons (k : String) (e : RegEntry) (rest : Registry) :
    keysOf ((k, e) :: rest) = k :: keysOf rest := rfl

/-- Agent ids of a consed registry. -/
theorem agentsOf_cons (k : String) (e : RegEntry) (rest : Registry) :
    agentsOf ((k, e) :: rest) = e.agentId :: agentsOf rest := rfl

/-- A lookup misses exactly when the key is unbound. -/
theorem lookupReg_eq_none : ∀ (reg : Registry) (sid : String),
    lookupReg reg sid = none ↔ sid ∉ keysOf reg := by
  intro reg sid
  induction reg with
  | nil => simp [lookupReg, keysOf]
  | cons p rest ih =>
    obtain ⟨k, e⟩ := p
    rw [keysOf_cons]
    by_cases h : k = sid
    · subst h; simp [lookupReg]
    · rw [List.mem_cons]
      simp only [lookupReg, if_neg h, ih]
      constructor
      · intro hn hc
        rcases hc with hc | hc
        · exact h hc.symm
        · exact hn hc
      · intro hn hc
        exact hn (Or.inr hc)

/-- Removing an unbound key changes nothing. -/
theorem removeReg_of_not_mem : ∀ (reg : Registry) (sid : String),
    sid ∉ keysOf reg → removeReg reg sid = reg := by
  intro reg sid
  induction reg with
  | nil => intro h; rfl
  | cons p rest ih =>
    obtain ⟨k, e⟩ := p
    rw [keysOf_cons, List.mem_cons]
    intro h
    push_neg at h
    rw [removeReg, if_neg (fun he => h.1 he.symm), ih h.2]

/-- `removeReg` yields a sublist of the registry. -/
theorem removeReg_sublist : ∀ (reg : Registry) (sid : String),
    (removeReg reg sid).Sublist reg := by
  intro reg sid
  induction reg with
  | nil => simp [removeReg]
  | cons p rest ih =>
    obtain ⟨k, e⟩ := p
    by_cases h : k = sid
    · rw [removeReg, if_pos h]
      exact ih.cons (k, e)
    · rw [removeReg, if_neg h]
      exact ih.cons₂ (k, e)

/-- After removal the key is unbound. -/
theorem not_mem_keys_removeReg : ∀ (reg : Registry) (sid : String),
    sid ∉ keysOf (removeReg reg sid) := by
  intro reg sid
  induction reg with
  | nil => simp [removeReg, keysOf]
  | cons p rest ih =>
    obtain ⟨k, e⟩ := p
    by_cases h : k = sid
    · rw [removeReg, if_pos h]
      exact ih
    · rw [removeReg, if_neg h, keysOf_cons, List.mem_cons]
      rintro (hc | hc)
      · exact h hc.symm
      · exact ih hc

/-- In a registry without duplicate keys, removing the entry that a lookup
found keeps every other agent registered. -/
theorem mem_agents_removeReg : ∀ (reg : Registry) (sid : String)
    (e : RegEntry) (a : Nat), (keysOf reg).Nodup →
    lookupReg reg sid = some e → a ∈ agentsOf reg → a ≠ e.agentId →
    a ∈ agentsOf (removeReg reg sid) := by
  intro reg
  induction reg with
  | nil => intro sid e a _ hl; simp [lookupReg] at hl
  | cons p rest ih =>
    obtain ⟨k, e'⟩ := p
    intro sid e a hnd hl hmem hne
    rw [keysOf_cons, List.nodup_cons] at hnd
    rw [agentsOf_cons, List.mem_cons] at hmem
    by_cases h : k = sid
    · subst h
      rw [lookupReg, if_pos rfl, Option.some_inj] at hl
      subst hl
      rw [removeReg, if_pos rfl, removeReg_of_not_mem rest k hnd.1]
      rcases hmem with hmem | hmem
      · exact absurd hmem hne
      · exact hmem
    · rw [lookupReg, if_neg h] at hl
      rw [removeReg, if_neg h, agentsOf_cons, List.mem_cons]
      rcases hmem with hmem | hmem
      · exact Or.inl hmem
      · exact Or.inr (ih sid e a hnd.2 hl hmem hne)

/-- In a registry without duplicate keys, at most one entry carries any
given key. -/
theorem filter_key_length_le_one : ∀ (reg : Registry) (sid : String),
    (keysOf reg).Nodup →
    (reg.filter (fun p => p.1 == sid)).length ≤ 1 := by
  intro reg sid
  induction reg with
  | nil => intro h; simp
  | cons p rest ih =>
    obtain ⟨k, e⟩ := p
    intro hnd
    rw [keysOf_cons, List.nodup_cons] at hnd
    by_cases h : k = sid
    · subst h
      have hrest : rest.filter (fun p => p.1 == k) = [] := by
        rw [List.filter_eq_nil_iff]
        intro p hp hpk
        rw [beq_iff_eq] at hpk
        exact hnd.1 (by
          rw [← hpk]
          exact List.mem_map_of_mem Prod.fst hp)
      simp [List.filter_cons, hrest]
    · have hfalse : ((k, e).1 == sid) = false := by
        simpa using h
      rw [List.filter_cons, hfalse]
      simpa using ih hnd.2

/-- One `start_call` with a fresh agent id preserves registry
well-formedness. -/
theorem regInv_step (w : RegWorld) (sid : String) (a b c : Bool) (n : Nat)
    (h : RegInv w n) :
    RegInv (handle_start_call w sid a b c n).1 (n + 1) := by
  obtain ⟨hkeys, hlive, hbound⟩ := h
  cases hl : lookupReg w.reg sid with
  | none =>
    have hsid : sid ∉ keysOf w.reg := (lookupReg_eq_none w.reg sid).mp hl
    refine ⟨?_, ?_, ?_⟩
    · rw [show keysOf (handle_start_call w sid a b c n).1.reg =
          sid :: keysOf w.reg by simp [handle_start_call, hl, keysOf_cons]]
      exact List.nodup_cons.mpr ⟨hsid, hkeys⟩
    · intro x hx
      rw [show (handle_start_call w sid a b c n).1.live = n :: w.live by
            simp [handle_start_call, hl]] at hx
      rw [show agentsOf (handle_start_call w sid a b c n).1.reg =
            n :: agentsOf w.reg by simp [handle_start_call, hl, agentsOf_cons]]
      rcases List.mem_cons.mp hx with hx | hx
      · exact List.mem_cons.mpr (Or.inl hx)
      · exact List.mem_cons.mpr (Or.inr (hlive x hx))
    · intro x hx
      rw [show agentsOf (handle_start_call w sid a b c n).1.reg =
            n :: agentsOf w.reg by simp [handle_start_call, hl, agentsOf_cons]]
        at hx
      rcases List.mem_cons.mp hx with hx | hx
      · omega
      · exact Nat.lt_succ_of_lt (hbound x hx)
  | some e =>
    refine ⟨?_, ?_, ?_⟩
    · rw [show keysOf (handle_start_call w sid a b c n).1.reg =
          sid :: keysOf (removeReg w.reg sid) by
            simp [handle_start_call, hl, keysOf_cons]]
      exact List.nodup_cons.mpr ⟨not_mem_keys_removeReg w.reg sid,
        hkeys.sublist ((removeReg_sublist w.reg sid).map Prod.fst)⟩
    · intro x hx
      rw [show (handle_start_call w sid a b c n).1.live =
            n :: w.live.filter (fun v => v ≠ e.agentId) by
              simp [handle_start_call, hl]] at hx
      rw [show agentsOf (handle_start_call w sid a b c n).1.reg =
            n :: agentsOf (removeReg w.reg sid) by
              simp [handle_start_call, hl, agentsOf_cons]]
      rcases List.mem_cons.mp hx with hx | hx
      · exact List.mem_cons.mpr (Or.inl hx)
      · obtain ⟨hxl, hxne⟩ := List.mem_filter.mp hx
        refine List.mem_cons.mpr (Or.inr ?_)
        exact mem_agents_removeReg w.reg sid e x hkeys hl (hlive x hxl)
          (by simpa using hxne)
    · intro x hx
      rw [show agentsOf (handle_start_call w sid a b c n).1.reg =
            n :: agentsOf (removeReg w.reg sid) by
              simp [handle_start_call, hl, agentsOf_cons]] at hx
      rcases List.mem_cons.mp hx with hx | hx
      · omega
      · exact Nat.lt_succ_of_lt (hbound x
          (((removeReg_sublist w.reg sid).map (fun p => p.2.agentId)).subset hx))

/-- Registry well-formedness is preserved along any sequence of
`start_call` events with fresh agent ids. -/
theorem runCalls_inv : ∀ (calls : List (String × Bool × Bool × Bool))
    (w : RegWorld) (n : Nat), RegInv w n →
    RegInv (runCalls w n calls) (n + calls.length) := by
  intro calls
  induction calls with
  | nil => intro w n h; simpa [runCalls] using h
  | cons cc rest ih =>
    intro w n h
    obtain ⟨sid, a, b, c⟩ := cc
    rw [show runCalls w n ((sid, a, b, c) :: rest) =
          runCalls (handle_start_call w sid a b c n).1 (n + 1) rest from rfl]
    have := ih _ (n + 1) (regInv_step w sid a b c n h)
    rw [show n + 1 + rest.length = n + ((sid, a, b, c) :: rest).length by
          simp; omega] at this
    exact this

/-- C5: registering a session identifier that already has an entry first
tears the prior entry down (stop for duplex mode, cleanup otherwise) and
only then installs the fresh agent, whose entry replaces the old one and
whose prior agent is no longer live; and after any sequence of start-call
operations from an empty registry, each identifier is bound by at most one
registry entry and has at most one live-connection entry. -/
theorem C5_registry_replacement :
    (∀ (w : RegWorld) (sid : String) (useVA vaAvail startOk : Bool)
       (newId : Nat) (e : RegEntry),
       lookupReg w.reg sid = some e → newId ≠ e.agentId →
       (handle_start_call w sid useVA vaAvail startOk newId).2 =
         [teardownEffect e, .startNew newId] ∧
       lookupReg (handle_start_call w sid useVA vaAvail startOk newId).1.reg sid =
         some ⟨newId,
           if useVA && vaAvail && startOk then .voiceAgent else .legacy⟩ ∧
       e.agentId ∉ (handle_start_call w sid useVA vaAvail startOk newId).1.live) ∧
    (∀ (calls : List (String × Bool × Bool × Bool)) (sid : String),
       ((runCalls {} 0 calls).reg.filter (fun p => p.1 == sid)).length ≤ 1 ∧
       ((runCalls {} 0 calls).reg.filter
           (fun p => decide (p.2.agentId ∈ (runCalls {} 0 calls).live) &&
             (p.1 == sid))).length ≤ 1) := by
  constructor
  · intro w sid useVA vaAvail startOk newId e hl hne
    refine ⟨by simp [handle_start_call, hl], ?_, ?_⟩
    · simp [handle_start_call, hl, lookupReg]
    · rw [show (handle_start_call w sid useVA vaAvail startOk newId).1.live =
            newId :: w.live.filter (fun v => v ≠ e.agentId) by
              simp [handle_start_call, hl]]
      rw [List.mem_cons]
      rintro (hc | hc)
      · exact hne hc.symm
      · have := (List.mem_filter.mp hc).2
        simp at this
  · intro calls sid
    have hinv : RegInv (runCalls {} 0 calls) (0 + calls.length) :=
      runCalls_inv calls {} 0
        ⟨by simp [keysOf], by simp, by simp [agentsOf]⟩
    have hkey := filter_key_length_le_one (runCalls {} 0 calls).reg sid hinv.1
    refine ⟨hkey, ?_⟩
    rw [← List.filter_filter]
    exact le_trans (List.length_filter_le _ _) hkey

/-- C5 witness: a registry holding one legacy entry for `"s1"` with live
agent 0; starting a new call for `"s1"` with fresh agent 1 tears agent 0
down first and then registers agent 1. -/
theorem C5_registry_replacement_witness :
    lookupReg [("s1", (⟨0, .legacy⟩ : RegEntry))] "s1" =
      some ⟨0, .legacy⟩ ∧
    (1 : Nat) ≠ 0 ∧
    (handle_start_call ⟨[("s1", ⟨0, .legacy⟩)], [0]⟩ "s1" true true true 1).2 =
      [teardownEffect ⟨0, .legacy⟩, .startNew 1] ∧
    (0 : Nat) ∉
      (handle_start_call ⟨[("s1", ⟨0, .legacy⟩)], [0]⟩ "s1" true true true 1).1.live := by
  have h := C5_registry_replacement.1 ⟨[("s1", ⟨0, .legacy⟩)], [0]⟩ "s1"
    true true true 1 ⟨0, .legacy⟩ rfl (by decide)
  exact ⟨rfl, by decide, h.1, h.2.2⟩
